import Mathlib

/-!
Verification of the client-side workflow layer of the MaternalRisk
assessment front end (src/ui/app.js), as a shallow embedding in Lean 4.

Modelling conventions, used consistently below:

* JavaScript numbers are modelled by `ℚ`.  Every numeric observable a
  claim mentions (rounding thresholds, one-decimal rendering, falsy
  defaulting, BMI band boundaries) is exact at the inputs involved, and
  the IEEE-double evaluation of the concrete scenario values rounds to
  the same displayed digits, so the rational idealisation is faithful
  for the properties stated here.
* The result of the host functions `parseFloat`/`parseInt` applied to an
  input field is modelled as `Option ℚ` carried in the state: `none`
  stands for an empty or unparseable field (JS `NaN`), `some v` for a
  field whose parsed value is `v`.  JS truthiness of such a value
  (`NaN` and `0` are falsy) is `numTruthy`.
* `JSON.parse` of a backend payload is a host function; its outcome is
  passed to each workflow model as an `Option` of the structured record:
  `none` stands for a payload that fails to parse (the parse throws).
* Asynchronous backend calls follow the source's own concurrency model
  (spec section 5): the completion callback runs on a *subsequent* turn
  of the single thread, after the invoking function — and any `try`
  block in it — has already returned.  Hence an exception thrown inside
  a callback is caught only by a `try` that is literally inside that
  callback.  An exception nothing catches is recorded in the
  `uncaughtError` field of a run record; the exact host message text is
  environment specific and is modelled by the fixed tokens below.
* DOM nodes are modelled by the fields of explicit state records; a
  `document.getElementById(...).textContent = e` style write becomes a
  functional update of the corresponding field.
-/

namespace MRS

/-- Host-exception token: `JSON.parse` threw on a malformed payload. -/
def jsonParseErrorMsg : String := "SyntaxError: JSON.parse"

/-- Host-exception token: a method was invoked on the null backend bridge. -/
def nullBackendErrorMsg : String := "TypeError: backend is null"

/-- The two language codes of the translation dictionary. -/
inductive Lang where
  | en
  | fil
deriving DecidableEq, Repr

/-- English half of the `translations` dictionary of app.js. -/
def translationsEn : String → Option String
  | "app-title" => some "MATERNAL RISK ASSESSMENT SYSTEM"
  | "app-subtitle" => some "Municipal Health Office Bay, Laguna | AI-Assisted Screening Tool"
  | "settings-language" => some "Language"
  | "lang-english" => some "English"
  | "lang-filipino" => some "Filipino"
  | "nav-new-assessment" => some "New Assessment"
  | "nav-dashboard" => some "Dashboard"
  | "nav-history" => some "History"
  | "nav-about" => some "About"
  | "patient-info-title" => some "Patient Information"
  | "label-patient-id" => some "Patient ID"
  | "label-health-worker" => some "Health Worker"
  | "placeholder-patient-id" => some "e.g., P-2024-001"
  | "placeholder-health-worker" => some "Your name"
  | "clinical-measurements-title" => some "Clinical Measurements"
  | "label-age" => some "Age (years)"
  | "hint-age" => some "Normal: 18-35"
  | "label-weight" => some "Weight (kg)"
  | "label-height" => some "Height (cm)"
  | "label-systolic" => some "Systolic BP (mmHg)"
  | "hint-systolic" => some "Normal: 90-120"
  | "label-diastolic" => some "Diastolic BP (mmHg)"
  | "hint-diastolic" => some "Normal: 60-80"
  | "bmi-normal" => some "Normal"
  | "bmi-underweight" => some "Underweight"
  | "bmi-overweight" => some "Overweight"
  | "bmi-obese" => some "Obese"
  | "lab-results-title" => some "Laboratory Test Results"
  | "lab-available-text" => some "Laboratory results available"
  | "label-blood-sugar" => some "Blood Sugar (mmol/L)"
  | "hint-blood-sugar" => some "Normal: 4.0-7.0"
  | "label-hemoglobin" => some "Hemoglobin (g/dL)"
  | "hint-hemoglobin" => some "Normal: 11.0-14.0"
  | "model-full" => some "Using: Full Model (5 features) - 90.6% accuracy"
  | "model-basic" => some "Using: Basic Model (3 features) - ~85% accuracy"
  | "btn-calculate" => some "Calculate Risk Assessment"
  | "btn-calculating" => some "🔄 Calculating..."
  | "btn-save" => some "💾 Save Assessment"
  | "btn-print" => some "🖨️ Print Report"
  | "btn-new" => some "📝 New Assessment"
  | "btn-export" => some "📥 Export to CSV"
  | "results-title" => some "Assessment Results"
  | "confidence-level" => some "Confidence Level"
  | "probability-breakdown" => some "Probability Breakdown"
  | "prob-low-risk" => some "✅ Low Risk"
  | "prob-moderate-risk" => some "⚠️ Moderate Risk"
  | "prob-high-risk" => some "🚨 High Risk"
  | "recommended-actions" => some "Recommended Actions"
  | "risk-low" => some "LOW RISK"
  | "risk-moderate" => some "MODERATE RISK"
  | "risk-high" => some "HIGH RISK"
  | "history-title" => some "📊 Assessment History"
  | "table-datetime" => some "Date/Time"
  | "table-patient-id" => some "Patient ID"
  | "table-age" => some "Age"
  | "table-risk-level" => some "Risk Level"
  | "table-confidence" => some "Confidence"
  | "table-model-used" => some "Model Used"
  | "table-health-worker" => some "Health Worker"
  | "rec-low-title" => some "✅ Low Risk - Routine Care"
  | "rec-low-1" => some "<b>Continue regular prenatal checkups</b> (monthly)"
  | "rec-low-2" => some "Maintain healthy diet and moderate exercise"
  | "rec-low-3" => some "Monitor for any changes in symptoms"
  | "rec-low-4" => some "Return immediately if any warning signs appear"
  | "rec-low-5" => some "Next checkup: Schedule in 4 weeks"
  | "rec-low-note" => some "✓ Patient can be managed at barangay health center level."
  | "rec-moderate-title" => some "⚠️ Moderate Risk - Enhanced Monitoring"
  | "rec-moderate-1" => some "<b>Refer to Rural Health Unit (RHU)</b> for evaluation"
  | "rec-moderate-2" => some "Increase prenatal visits (bi-weekly or as advised)"
  | "rec-moderate-3" => some "Monitor blood pressure and blood sugar regularly"
  | "rec-moderate-4" => some "Educate on warning signs to watch for"
  | "rec-moderate-5" => some "May need additional tests or specialist consultation"
  | "rec-moderate-note" => some "⚠️ Coordinate with RHU midwife or physician for management plan."
  | "rec-high-title" => some "🚨 High Risk - URGENT REFERRAL NEEDED"
  | "rec-high-1" => some "<b style=\"color: #dc2626;\">IMMEDIATE referral to hospital/OB-GYN</b>"
  | "rec-high-2" => some "Patient needs specialist care and close monitoring"
  | "rec-high-3" => some "High-risk pregnancy requiring advanced interventions"
  | "rec-high-4" => some "Weekly or more frequent prenatal visits required"
  | "rec-high-5" => some "Prepare for potential complications"
  | "rec-high-note" => some "⚠️ DO NOT DELAY: Refer to nearest hospital with OB-GYN services immediately."
  | "dashboard-total-assessments" => some "Total assessments conducted"
  | "dashboard-high-risk" => some "Patients requiring immediate referral"
  | "dashboard-avg-confidence" => some "Average prediction confidence"
  | "dashboard-recent-activity" => some "Assessments this week"
  | "dashboard-risk-distribution" => some "Risk Level Distribution"
  | "dashboard-assessments-over-time" => some "Assessments Over Time"
  | "dashboard-risk-factors" => some "Most Common Risk Factors"
  | "dashboard-risk-factor" => some "Risk Factor"
  | "dashboard-count" => some "Count"
  | "dashboard-percentage" => some "Percentage"
  | "dashboard-no-data" => some "No data available"
  | _ => none

/-- Filipino half of the `translations` dictionary of app.js. -/
def translationsFil : String → Option String
  | "app-title" => some "SISTEMA NG PAGSUSURI SA PANGANIB SA INA"
  | "app-subtitle" => some "Tanggapan ng Kalusugan ng Bayan ng Bay, Laguna | Kagamitang Pandagdag ng AI"
  | "settings-language" => some "Wika"
  | "lang-english" => some "Ingles"
  | "lang-filipino" => some "Filipino"
  | "nav-new-assessment" => some "Bagong Pagsusuri"
  | "nav-dashboard" => some "Dashboard"
  | "nav-history" => some "Kasaysayan"
  | "nav-about" => some "Tungkol"
  | "patient-info-title" => some "Impormasyon ng Pasyente"
  | "label-patient-id" => some "Patient ID"
  | "label-health-worker" => some "Manggagawa ng Kalusugan"
  | "placeholder-patient-id" => some "hal., P-2024-001"
  | "placeholder-health-worker" => some "Iyong pangalan"
  | "clinical-measurements-title" => some "Mga Sukat sa Klinika"
  | "label-age" => some "Edad (taon)"
  | "hint-age" => some "Normal: 18-35"
  | "label-weight" => some "Timbang (kg)"
  | "label-height" => some "Taas (cm)"
  | "label-systolic" => some "Systolic BP (mmHg)"
  | "hint-systolic" => some "Normal: 90-120"
  | "label-diastolic" => some "Diastolic BP (mmHg)"
  | "hint-diastolic" => some "Normal: 60-80"
  | "bmi-normal" => some "Normal"
  | "bmi-underweight" => some "Kulang sa Timbang"
  | "bmi-overweight" => some "Labis sa Timbang"
  | "bmi-obese" => some "Sobra sa Timbang"
  | "lab-results-title" => some "Resulta ng Laboratoryo"
  | "lab-available-text" => some "May resulta ng laboratoryo"
  | "label-blood-sugar" => some "Asukal sa Dugo (mmol/L)"
  | "hint-blood-sugar" => some "Normal: 4.0-7.0"
  | "label-hemoglobin" => some "Hemoglobina (g/dL)"
  | "hint-hemoglobin" => some "Normal: 11.0-14.0"
  | "model-full" => some "Ginagamit: Kumpletong Modelo (5 features) - 90.6% kawastuhan"
  | "model-basic" => some "Ginagamit: Pangunahing Modelo (3 features) - ~85% kawastuhan"
  | "btn-calculate" => some "Kalkulahin ang Pagsusuri sa Panganib"
  | "btn-calculating" => some "🔄 Kinakalkula..."
  | "btn-save" => some "💾 I-save ang Pagsusuri"
  | "btn-print" => some "🖨️ I-print ang Ulat"
  | "btn-new" => some "📝 Bagong Pagsusuri"
  | "btn-export" => some "📥 I-export sa CSV"
  | "results-title" => some "Resulta ng Pagsusuri"
  | "confidence-level" => some "Antas ng Katiyakan"
  | "probability-breakdown" => some "Detalye ng Posibilidad"
  | "prob-low-risk" => some "✅ Mababang Panganib"
  | "prob-moderate-risk" => some "⚠️ Katamtamang Panganib"
  | "prob-high-risk" => some "🚨 Mataas na Panganib"
  | "recommended-actions" => some "Mga Inirerekomendang Aksyon"
  | "risk-low" => some "MABABANG PANGANIB"
  | "risk-moderate" => some "KATAMTAMANG PANGANIB"
  | "risk-high" => some "MATAAS NA PANGANIB"
  | "history-title" => some "📊 Kasaysayan ng Pagsusuri"
  | "table-datetime" => some "Petsa/Oras"
  | "table-patient-id" => some "Patient ID"
  | "table-age" => some "Edad"
  | "table-risk-level" => some "Antas ng Panganib"
  | "table-confidence" => some "Katiyakan"
  | "table-model-used" => some "Modelo na Ginamit"
  | "table-health-worker" => some "Manggagawa ng Kalusugan"
  | "rec-low-title" => some "✅ Mababang Panganib - Karaniwang Pag-aalaga"
  | "rec-low-1" => some "<b>Magpatuloy sa regular na prenatal checkup</b> (buwanan)"
  | "rec-low-2" => some "Panatilihin ang malusog na pagkain at katamtamang ehersisyo"
  | "rec-low-3" => some "Bantayan ang anumang pagbabago sa mga sintomas"
  | "rec-low-4" => some "Bumalik kaagad kung may lumilitaw na babala"
  | "rec-low-5" => some "Susunod na checkup: Mag-iskedyul sa loob ng 4 na linggo"
  | "rec-low-note" => some "✓ Maaaring pangasiwaan ang pasyente sa antas ng barangay health center."
  | "rec-moderate-title" => some "⚠️ Katamtamang Panganib - Dagdag na Pagsubaybay"
  | "rec-moderate-1" => some "<b>Dalhin sa Rural Health Unit (RHU)</b> para sa evaluasyon"
  | "rec-moderate-2" => some "Dagdagan ang prenatal visits (tuwing dalawang linggo o ayon sa payo)"
  | "rec-moderate-3" => some "Regular na bantayan ang presyon ng dugo at asukal sa dugo"
  | "rec-moderate-4" => some "Turuan tungkol sa mga senyales ng panganib na dapat bantayan"
  | "rec-moderate-5" => some "Maaaring kailanganin ng dagdag na pagsusuri o konsultasyon sa espesyalista"
  | "rec-moderate-note" => some "⚠️ Makipagtulungan sa midwife o doktor ng RHU para sa plano ng pangangalaga."
  | "rec-high-title" => some "🚨 Mataas na Panganib - KAILANGAN NG AGARANG REFERRAL"
  | "rec-high-1" => some "<b style=\"color: #dc2626;\">AGARANG dalhin sa ospital/OB-GYN</b>"
  | "rec-high-2" => some "Kailangan ng pasyente ng pag-aalaga ng espesyalista at malapit na pagsubaybay"
  | "rec-high-3" => some "Pagbubuntis na may mataas na panganib na nangangailangan ng advanced na interbensyon"
  | "rec-high-4" => some "Kailangan ng lingguhang o mas madalas na prenatal visits"
  | "rec-high-5" => some "Maghanda para sa mga posibleng komplikasyon"
  | "rec-high-note" => some "⚠️ HUWAG MAGPABAYA: Dalhin kaagad sa pinakamalapit na ospital na may serbisyo ng OB-GYN."
  | "dashboard-total-assessments" => some "Kabuuang pagsusuring isinagawa"
  | "dashboard-high-risk" => some "Pasyenteng nangangailangan ng agarang referral"
  | "dashboard-avg-confidence" => some "Average na katiyakan ng prediction"
  | "dashboard-recent-activity" => some "Pagsusuri ngayong linggo"
  | "dashboard-risk-distribution" => some "Distribusyon ng Antas ng Panganib"
  | "dashboard-assessments-over-time" => some "Pagsusuri sa Paglipas ng Panahon"
  | "dashboard-risk-factors" => some "Pinaka-Karaniwang Risk Factors"
  | "dashboard-risk-factor" => some "Risk Factor"
  | "dashboard-count" => some "Bilang"
  | "dashboard-percentage" => some "Porsyento"
  | "dashboard-no-data" => some "Walang available na data"
  | _ => none

/-- The two-level dictionary `translations[lang][key]`; `none` models an
absent key (JS `undefined`). -/
def translations (lang : Lang) (key : String) : Option String :=
  match lang with
  | Lang.en => translationsEn key
  | Lang.fil => translationsFil key

/-- Lookup used where app.js interpolates `translations[lang][key]` into a
string: an absent key renders as the text "undefined". -/
def tr (lang : Lang) (key : String) : String :=
  (translations lang key).getD "undefined"

/-- JS `Math.round`: nearest integer, ties toward positive infinity. -/
def jsRound (q : ℚ) : Int :=
  ⌊q + 1/2⌋

/-- JS `Number.prototype.toFixed(1)`, kept as the integer count of tenths:
nearest multiple of one tenth, ties toward positive infinity (the ECMA
rule picks the larger candidate on a tie). -/
def jsToFixedTenths (q : ℚ) : Int :=
  ⌊q * 10 + 1/2⌋

/-- Render a tenths count the way `toFixed(1)` prints it, e.g. `234` to
"23.4" and `-20` to "-2.0". -/
def tenthsToString (n : Int) : String :=
  (if n < 0 then "-" else "") ++ toString (n.natAbs / 10) ++ "." ++ toString (n.natAbs % 10)

/-- JS truthiness of a parsed numeric field: `NaN` (= `none`) and `0` are
falsy, every other number is truthy. -/
def numTruthy (o : Option ℚ) : Bool :=
  match o with
  | some v => decide (v ≠ 0)
  | none => false

/-- JS `x || d` on a number `x`: the default replaces both `NaN` and `0`. -/
def qOr (o : Option ℚ) (d : ℚ) : ℚ :=
  match o with
  | some v => if v = 0 then d else v
  | none => d

/-- JS `x || d` on a number already known to be a number (not `NaN`). -/
def numOr (v : ℚ) (d : ℚ) : ℚ :=
  if v = 0 then d else v

/-- JS `s || d` on a string that may be `undefined`: `undefined` and the
empty string are falsy. -/
def strOr (o : Option String) (d : String) : String :=
  match o with
  | some s => if s = "" then d else s
  | none => d

/-- JS `s || d` on a plain string. -/
def strOrS (s d : String) : String :=
  if s = "" then d else s

/-- JS truthiness of a string that may be `undefined`. -/
def strTruthy (o : Option String) : Bool :=
  match o with
  | some s => decide (s ≠ "")
  | none => false

/-- JS `parseInt` truncates toward zero; applied to a field whose
`parseFloat` reading is `v` (decimal notation) this is the truncation
of `v`. -/
def jsTrunc (q : ℚ) : Int :=
  if q < 0 then -⌊-q⌋ else ⌊q⌋

/-- JS `String.prototype.trim`: strip leading and trailing whitespace. -/
def jsTrim (s : String) : String :=
  String.mk (((s.toList.dropWhile Char.isWhitespace).reverse.dropWhile Char.isWhitespace).reverse)

/-- Membership test `0 < parseFloat(height)/100` used by `calculateBMI`;
false for an unparseable field (`NaN > 0` is false). -/
def heightPos (o : Option ℚ) : Bool :=
  match o with
  | some v => decide (0 < v)
  | none => false

/-- Output written to the BMI display by `calculateBMI`: the one-decimal
value, the status translation key, the severity class and the icon. -/
structure BMIOut where
  valueTenths : Int
  statusKey : String
  className : String
  icon : String
deriving DecidableEq, Repr

/-- The `calculateBMI` function of app.js on the parsed weight (kg) and
height (cm) fields.  Mirrors the guard `if (weight && height > 0)` — note
that a *negative* weight is truthy and passes the guard — and the
`bmi < 18.5 / < 25 / < 30 / else` classification chain together with the
icon choice.  `none` means the function returns without touching the
display. -/
def calculateBMI (weightField heightField : Option ℚ) : Option BMIOut :=
  let height : Option ℚ := heightField.map (· / 100)
  if numTruthy weightField && heightPos height then
    match weightField, height with
    | some w, some h =>
      let bmi := w / (h * h)
      let p : String × String :=
        if bmi < 185/10 then ("bmi-underweight", "warning")
        else if bmi < 25 then ("bmi-normal", "normal")
        else if bmi < 30 then ("bmi-overweight", "warning")
        else ("bmi-obese", "danger")
      some { valueTenths := jsToFixedTenths bmi
             statusKey := p.1
             className := p.2
             icon := if p.2 = "normal" then "✅" else if p.2 = "danger" then "🚨" else "⚠️" }
    | _, _ => none
  else none

/-- Band classification as the specification words it ("value < 18.5 →
Underweight; 18.5 ≤ value < 25 → Normal; 25 ≤ value < 30 → Overweight;
value ≥ 30 → Obese"), for comparison with the source's chain. -/
def specBand (value : ℚ) : String :=
  if value < 185/10 then "Underweight"
  else if 185/10 ≤ value ∧ value < 25 then "Normal"
  else if 25 ≤ value ∧ value < 30 then "Overweight"
  else "Obese"

/-- Display name of a BMI status translation key. -/
def bandNameOfKey : String → String
  | "bmi-underweight" => "Underweight"
  | "bmi-normal" => "Normal"
  | "bmi-overweight" => "Overweight"
  | "bmi-obese" => "Obese"
  | _ => ""

/-!
Localization engine state.  The `data-i18n` tagged elements and the
`data-i18n-placeholder` tagged inputs are modelled as association lists
from translation key to current text.  `localStorage.getItem/setItem` of
the language code is the `storedLanguage` field.  The model-indicator
span and the BMI status line are written through dedicated fields (the
source addresses them by element id, not through the tag scan).
`todayDate` is the abstract current day consulted by the date formatter.
-/

structure UIState where
  currentLanguage : Lang
  elements : List (String × String)
  placeholders : List (String × String)
  checkEnVisible : Bool
  checkFilVisible : Bool
  dateText : String
  todayDate : Nat
  storedLanguage : Lang
  labAvailableChecked : Bool
  modelIndicatorHtml : String
  bmiValueText : String
  bmiStatusText : String
  bmiStatusClass : String
  weightField : Option ℚ
  heightField : Option ℚ
  dropdownActive : Bool
deriving DecidableEq, Repr

/-- Re-resolve one tagged element: a present key replaces the text, a
missing key leaves the element unchanged (`if (translations[lang][key])`). -/
def resolveElement (lang : Lang) (e : String × String) : String × String :=
  match translations lang e.1 with
  | some s => (e.1, s)
  | none => e

/-- Host `Date.toLocaleDateString(locale, ...)`, modelled as a fixed
deterministic function of the locale string and the abstract day. -/
def localeDateString (locale : String) (day : Nat) : String :=
  locale ++ ":" ++ toString day

/-- The `updateLanguage` function of app.js: re-render every tagged
element and placeholder, update the dropdown checkmarks, reformat the
displayed date with the locale tied to the language, and persist the
preference. -/
def updateLanguage (st : UIState) : UIState :=
  let lang := st.currentLanguage
  { st with
    elements := st.elements.map (resolveElement lang)
    placeholders := st.placeholders.map (resolveElement lang)
    checkEnVisible := lang == Lang.en
    checkFilVisible := !(lang == Lang.en)
    dateText := localeDateString (if lang == Lang.en then "en-US" else "fil-PH") st.todayDate
    storedLanguage := lang }

/-- The `<img ...>` prefix that `switchLanguage`/`toggleLabInputs` put in
front of the model indicator text. -/
def iconImgHtml : String :=
  "<img src=\"../assets/info-circle.png\" alt=\"\" class=\"info-icon\" style=\"width: 16px; height: 16px; margin-right: 12px;\">"

/-- InnerHTML written to the model indicator for the given language and
lab-available checkbox state. -/
def modelIndicatorSpan (lang : Lang) (labAvailable : Bool) : String :=
  if labAvailable then
    iconImgHtml ++ "<span data-i18n=\"model-full\">" ++ tr lang "model-full" ++ "</span>"
  else
    iconImgHtml ++ "<span data-i18n=\"model-basic\">" ++ tr lang "model-basic" ++ "</span>"

/-- Effect of a `calculateBMI()` call on the display state: when the
guard declines to compute, nothing is touched. -/
def applyCalculateBMI (st : UIState) : UIState :=
  match calculateBMI st.weightField st.heightField with
  | none => st
  | some out =>
    { st with
      bmiValueText := tenthsToString out.valueTenths
      bmiStatusText := out.icon ++ " " ++ tr st.currentLanguage out.statusKey
      bmiStatusClass := "bmi-status " ++ out.className }

/-- The `switchLanguage` function of app.js.  An already-active code
returns immediately; otherwise the language is stored, `updateLanguage`
re-renders, the model indicator is rewritten, the BMI status is
recomputed when one is visible, and the settings dropdown closes. -/
def switchLanguage (lang : Lang) (st : UIState) : UIState :=
  if lang = st.currentLanguage then st
  else
    let st1 := updateLanguage { st with currentLanguage := lang }
    let st2 := { st1 with modelIndicatorHtml := modelIndicatorSpan lang st1.labAvailableChecked }
    let st3 := if st2.bmiStatusText ≠ "" then applyCalculateBMI st2 else st2
    { st3 with dropdownActive := false }

/-!
Risk assessment workflow: the parsed scoring response, the rendered
result view, and the `calculateRisk` request/response round trip.
-/

/-- The probability triple of a scoring response. -/
structure Probabilities where
  low : ℚ
  moderate : ℚ
  high : ℚ
deriving DecidableEq, Repr

/-- A parsed `assess_risk` response.  A backend-declared business error
carries `error = some msg`; the remaining fields mirror the success
shape.  `bmi` is the backend's bmi field as later read by
`parseFloat(result.bmi)` (`none` = absent/unparseable). -/
structure AssessResult where
  error : Option String
  risk_level : String
  confidence : ℚ
  probabilities : Probabilities
  bmi : Option ℚ
  model_used : String
  lab_available : Bool
deriving DecidableEq, Repr

/-- Observables written by `updateGauge`. -/
structure GaugeView where
  percentText : String
  strokeColor : String
  percentColor : String
  strokeDashoffsetTarget : ℚ
deriving DecidableEq, Repr

/-- The fixed gauge circumference 251.2 of app.js. -/
def circumference : ℚ := 2512/10

/-- The `updateGauge` function: percentage text is `Math.round`ed, the
color map falls back to the Low color for unknown risk levels
(`colors[riskLevel] || colors.Low`), and the animated sweep target is
proportional to the raw percentage. -/
def updateGauge (percentage : ℚ) (riskLevel : String) : GaugeView :=
  let color :=
    match riskLevel with
    | "Low" => "#10b981"
    | "Moderate" => "#f59e0b"
    | "High" => "#ef4444"
    | _ => "#10b981"
  { percentText := toString (jsRound percentage) ++ "%"
    strokeColor := color
    percentColor := color
    strokeDashoffsetTarget := circumference - percentage / 100 * circumference }

/-- Observables written by `updateProbabilities`: the three labels are
`toFixed(1)` renderings, the three bar widths are the raw values. -/
structure ProbView where
  probLowTextTenths : Int
  probModerateTextTenths : Int
  probHighTextTenths : Int
  barLowWidth : ℚ
  barModerateWidth : ℚ
  barHighWidth : ℚ
deriving DecidableEq, Repr

/-- The `updateProbabilities` function of app.js. -/
def updateProbabilities (probs : Probabilities) : ProbView :=
  { probLowTextTenths := jsToFixedTenths probs.low
    probModerateTextTenths := jsToFixedTenths probs.moderate
    probHighTextTenths := jsToFixedTenths probs.high
    barLowWidth := probs.low
    barModerateWidth := probs.moderate
    barHighWidth := probs.high }

/-- The icon map of `displayResults`; `none` = JS `undefined`. -/
def riskIcon : String → Option String
  | "Low" => some "✅"
  | "Moderate" => some "⚠️"
  | "High" => some "🚨"
  | _ => none

/-- The risk-key map of `displayResults`; `none` = JS `undefined`. -/
def riskKey : String → Option String
  | "Low" => some "risk-low"
  | "Moderate" => some "risk-moderate"
  | "High" => some "risk-high"
  | _ => none

/-- The `updateRecommendations` function: `Low` and `Moderate` are the
two explicitly matched cases, everything else takes the trailing `else`
and renders the High-risk block.  Template-literal whitespace is elided;
the tag structure and the translated fragments are kept. -/
def updateRecommendations (lang : Lang) (result : AssessResult) : String :=
  if result.risk_level = "Low" then
    "<h4 style=\"color: #10b981;\">" ++ tr lang "rec-low-title" ++ "</h4><ul><li>" ++
      tr lang "rec-low-1" ++ "</li><li>" ++ tr lang "rec-low-2" ++ "</li><li>" ++
      tr lang "rec-low-3" ++ "</li><li>" ++ tr lang "rec-low-4" ++ "</li><li>" ++
      tr lang "rec-low-5" ++ "</li></ul><p style=\"font-style: italic; color: #10b981;\">" ++
      tr lang "rec-low-note" ++ "</p>"
  else if result.risk_level = "Moderate" then
    "<h4 style=\"color: #f59e0b;\">" ++ tr lang "rec-moderate-title" ++ "</h4><ul><li>" ++
      tr lang "rec-moderate-1" ++ "</li><li>" ++ tr lang "rec-moderate-2" ++ "</li><li>" ++
      tr lang "rec-moderate-3" ++ "</li><li>" ++ tr lang "rec-moderate-4" ++ "</li><li>" ++
      tr lang "rec-moderate-5" ++ "</li></ul><p style=\"font-style: italic; color: #f59e0b;\">" ++
      tr lang "rec-moderate-note" ++ "</p>"
  else
    "<h4 style=\"color: #ef4444;\">" ++ tr lang "rec-high-title" ++ "</h4><ul><li>" ++
      tr lang "rec-high-1" ++ "</li><li>" ++ tr lang "rec-high-2" ++ "</li><li>" ++
      tr lang "rec-high-3" ++ "</li><li>" ++ tr lang "rec-high-4" ++ "</li><li>" ++
      tr lang "rec-high-5" ++ "</li></ul><p><b style=\"color: #dc2626;\">" ++
      tr lang "rec-high-note" ++ "</b></p>"

/-- Everything `displayResults` renders for a result. -/
structure DisplayView where
  riskText : String
  riskClass : String
  gauge : GaugeView
  probs : ProbView
  recommendationsHtml : String
deriving DecidableEq, Repr

/-- The `displayResults` function of app.js.  An unknown risk level makes
`icons[...]` and `riskKeys[...]` JS `undefined`, which the template and
the dictionary lookup render as the text "undefined". -/
def displayResults (lang : Lang) (result : AssessResult) : DisplayView :=
  { riskText := (riskIcon result.risk_level).getD "undefined" ++ " " ++
      tr lang ((riskKey result.risk_level).getD "undefined")
    riskClass := "risk-level " ++ result.risk_level.toLower
    gauge := updateGauge result.confidence result.risk_level
    probs := updateProbabilities result.probabilities
    recommendationsHtml := updateRecommendations lang result }

/-- Observable outcome of one `calculateRisk` trigger, from the click to
the last turn of its callback (or its synchronous `catch`). -/
structure CalcRun where
  finalBtnLabel : String
  finalBtnDisabled : Bool
  alert : Option String
  uncaughtError : Option String
  stored : Option AssessResult
  displayed : Option DisplayView
deriving DecidableEq, Repr

/-- The `calculateRisk` function of app.js.  The button is put into the
calculating state first.  The `try` block covers only the synchronous
phase (field capture and the `backend.assess_risk(...)` invocation); a
null bridge therefore throws *inside* the `try` and is caught and
alerted.  The completion callback runs on a later turn: a response that
fails `JSON.parse` throws *outside* any `try`, so nothing catches it,
no alert fires, and the button is left disabled with the calculating
label.  A parsed response either carries `error` (alerted, button
restored) or is stored as the current assessment and rendered. -/
def runCalculateRisk (lang : Lang) (backendUp : Bool) (parsed : Option AssessResult) : CalcRun :=
  if backendUp then
    match parsed with
    | none =>
      { finalBtnLabel := tr lang "btn-calculating"
        finalBtnDisabled := true
        alert := none
        uncaughtError := some jsonParseErrorMsg
        stored := none
        displayed := none }
    | some result =>
      match result.error with
      | some msg =>
        { finalBtnLabel := tr lang "btn-calculate"
          finalBtnDisabled := false
          alert := some ("Error: " ++ msg)
          uncaughtError := none
          stored := none
          displayed := none }
      | none =>
        { finalBtnLabel := tr lang "btn-calculate"
          finalBtnDisabled := false
          alert := none
          uncaughtError := none
          stored := some result
          displayed := some (displayResults lang result) }
  else
    { finalBtnLabel := tr lang "btn-calculate"
      finalBtnDisabled := false
      alert := some ("Error calculating risk: " ++ nullBackendErrorMsg)
      uncaughtError := none
      stored := none
      displayed := none }

/-!
Persistence workflow (`saveAssessment` / `proceedWithSave`).
-/

/-- Parsed values of the form fields read by the save workflow.  Numeric
fields carry the `parseFloat` reading (`none` = empty/unparseable). -/
structure FormState where
  patientId : String
  healthWorker : String
  age : Option ℚ
  weight : Option ℚ
  height : Option ℚ
  systolic : Option ℚ
  diastolic : Option ℚ
  bloodSugar : Option ℚ
  hemoglobin : Option ℚ
  labAvailable : Bool
deriving DecidableEq, Repr

/-- A parsed `generate_patient_id` response; `patient_id = none` models
an absent field (JS `undefined`). -/
structure GenIdResponse where
  success : Bool
  patient_id : Option String
deriving DecidableEq, Repr

/-- The wire record assembled by `proceedWithSave`. -/
structure Payload where
  patient_id : String
  health_worker : String
  age : Int
  bmi : ℚ
  systolic : ℚ
  diastolic : ℚ
  blood_sugar : ℚ
  hemoglobin : ℚ
  risk_level : String
  confidence : ℚ
  model_used : String
  lab_available : Bool
deriving DecidableEq, Repr

/-- The `proceedWithSave` field assembly of app.js.  Every clinical field
is defaulted through JS `||`, i.e. by *falsiness*: an entered `0` parses
successfully and is still replaced by the default. -/
def proceedWithSave (patientId : String) (result : AssessResult) (form : FormState) : Payload :=
  let healthWorker := strOrS (jsTrim form.healthWorker) "N/A"
  let age := match form.age.map jsTrunc with
    | some v => if v = 0 then 25 else v
    | none => 25
  let bmi := qOr result.bmi 0
  let systolic := qOr form.systolic 120
  let diastolic := qOr form.diastolic 80
  let bloodSugar := qOr form.bloodSugar 0
  let hemoglobin := qOr form.hemoglobin 0
  { patient_id := patientId
    health_worker := healthWorker
    age := age
    bmi := bmi
    systolic := systolic
    diastolic := diastolic
    blood_sugar := bloodSugar
    hemoglobin := hemoglobin
    risk_level := result.risk_level
    confidence := numOr result.confidence 0
    model_used := result.model_used
    lab_available := result.lab_available }

/-- Observable outcome of one `saveAssessment` trigger.  The handling of
the `save_assessment` *response* (success/business-error/transport
logging) only writes to the console and is not needed by any claim;
`saveCallMade`/`payload` record that and what the workflow sent. -/
structure SaveRun where
  alert : Option String
  genCallMade : Bool
  saveCallMade : Bool
  payload : Option Payload
  patientIdField : String
  uncaughtError : Option String
deriving DecidableEq, Repr

/-- The `saveAssessment` function of app.js.  With no current assessment
it alerts and returns before touching anything.  A trimmed patient id
that is empty or the literal "N/A" triggers a `generate_patient_id`
round trip: a parsed response with truthy `success` and truthy
`patient_id` writes that id into the field and saves with it; any other
parsed response saves with `idResult.patient_id || 'P-2025-0001'`
(logged, non-fatal); a response that fails `JSON.parse` lands in the
callback's `catch`, which alerts and does *not* proceed with the save.
A non-empty id is used directly with no generation call.  `genParsed`
is the parsed generation response (consulted only when the generation
branch runs); `backendUp = false` makes the method invocation on the
null bridge throw, uncaught. -/
def runSaveAssessment (backendUp : Bool) (current : Option AssessResult)
    (form : FormState) (genParsed : Option GenIdResponse) : SaveRun :=
  match current with
  | none =>
    { alert := some "No assessment to save. Please calculate risk first."
      genCallMade := false
      saveCallMade := false
      payload := none
      patientIdField := form.patientId
      uncaughtError := none }
  | some result =>
    let patientIdInput := jsTrim form.patientId
    if patientIdInput = "" ∨ patientIdInput = "N/A" then
      if backendUp then
        match genParsed with
        | none =>
          { alert := some "Error generating Patient ID. Please enter manually."
            genCallMade := true
            saveCallMade := false
            payload := none
            patientIdField := form.patientId
            uncaughtError := none }
        | some idResult =>
          if idResult.success && strTruthy idResult.patient_id then
            let pid := (idResult.patient_id).getD ""
            { alert := none
              genCallMade := true
              saveCallMade := true
              payload := some (proceedWithSave pid result form)
              patientIdField := pid
              uncaughtError := none }
          else
            let fallbackId := strOr idResult.patient_id "P-2025-0001"
            { alert := none
              genCallMade := true
              saveCallMade := true
              payload := some (proceedWithSave fallbackId result form)
              patientIdField := fallbackId
              uncaughtError := none }
      else
        { alert := none
          genCallMade := false
          saveCallMade := false
          payload := none
          patientIdField := form.patientId
          uncaughtError := some nullBackendErrorMsg }
    else
      if backendUp then
        { alert := none
          genCallMade := false
          saveCallMade := true
          payload := some (proceedWithSave patientIdInput result form)
          patientIdField := form.patientId
          uncaughtError := none }
      else
        { alert := none
          genCallMade := false
          saveCallMade := false
          payload := some (proceedWithSave patientIdInput result form)
          patientIdField := form.patientId
          uncaughtError := some nullBackendErrorMsg }

/-!
Reporting workflow (`printReport`).
-/

/-- A parsed `generate_pdf_report` response. -/
structure PdfResponse where
  success : Bool
  filename : Option String
  error : Option String
deriving DecidableEq, Repr

/-- The three alert messages `printReport` can show (the success text
embeds the returned filename). -/
inductive PrintAlert where
  | noAssessment
  | pdfGenerated (filename : String)
  | pdfError (msg : String)
deriving DecidableEq, Repr

/-- Observable outcome of one `printReport` trigger.  `patientIdSent`
and `healthWorkerSent` are the arguments carried by the issued call. -/
structure PrintRun where
  alert : Option PrintAlert
  callMade : Bool
  patientIdSent : Option String
  healthWorkerSent : Option String
  btnLabel : String
  btnDisabled : Bool
  uncaughtError : Option String
deriving DecidableEq, Repr

/-- The `printReport` function of app.js.  No current assessment: alert
and return with the button untouched.  Otherwise the button is disabled
and relabelled, the untrimmed id and health-worker fields are defaulted
through `|| 'N/A'`, and the call is issued; the callback has no `try`,
so a response that fails `JSON.parse` throws uncaught and leaves the
button disabled — as does a null bridge, which throws after the button
was already disabled. -/
def runPrintReport (backendUp : Bool) (current : Option AssessResult)
    (pidField hwField : String) (origLabel : String)
    (parsed : Option PdfResponse) : PrintRun :=
  match current with
  | none =>
    { alert := some PrintAlert.noAssessment
      callMade := false
      patientIdSent := none
      healthWorkerSent := none
      btnLabel := origLabel
      btnDisabled := false
      uncaughtError := none }
  | some _ =>
    let patientId := strOrS pidField "N/A"
    let healthWorker := strOrS hwField "N/A"
    if backendUp then
      match parsed with
      | none =>
        { alert := none
          callMade := true
          patientIdSent := some patientId
          healthWorkerSent := some healthWorker
          btnLabel := "📄 Generating PDF..."
          btnDisabled := true
          uncaughtError := some jsonParseErrorMsg }
      | some res =>
        { alert := if res.success
            then some (PrintAlert.pdfGenerated ((res.filename).getD "undefined"))
            else some (PrintAlert.pdfError ((res.error).getD "undefined"))
          callMade := true
          patientIdSent := some patientId
          healthWorkerSent := some healthWorker
          btnLabel := origLabel
          btnDisabled := false
          uncaughtError := none }
    else
      { alert := none
        callMade := false
        patientIdSent := none
        healthWorkerSent := none
        btnLabel := "📄 Generating PDF..."
        btnDisabled := true
        uncaughtError := some nullBackendErrorMsg }

/-!
History and dashboard aggregation.
-/

/-- A history record as parsed from `load_history`. -/
structure HistoryRecord where
  Timestamp : String
  Patient_ID : String
  Age : ℚ
  BMI : ℚ
  Risk_Level : String
  Confidence : String
  Model_Used : String
  Health_Worker : String
deriving DecidableEq, Repr

/-- One rendered history table row. -/
structure HistoryRow where
  timestamp : String
  patientId : String
  age : ℚ
  bmiTenths : Int
  riskBadgeClass : String
  riskLevel : String
  confidence : String
  modelUsed : String
  healthWorker : String
deriving DecidableEq, Repr

/-- Row template of `loadHistory`: BMI is re-parsed and rendered to one
decimal, the badge class is the lower-cased risk level, everything else
passes through. -/
def renderHistoryRow (r : HistoryRecord) : HistoryRow :=
  { timestamp := r.Timestamp
    patientId := r.Patient_ID
    age := r.Age
    bmiTenths := jsToFixedTenths r.BMI
    riskBadgeClass := r.Risk_Level.toLower
    riskLevel := r.Risk_Level
    confidence := r.Confidence
    modelUsed := r.Model_Used
    healthWorker := r.Health_Worker }

/-- Observable outcome of one `loadHistory` trigger. -/
structure HistoryRun where
  rowsRendered : Option (List HistoryRow)
  uncaughtError : Option String
deriving DecidableEq, Repr

/-- The `loadHistory` function of app.js.  It has *no* null-bridge guard:
`backend.load_history(...)` on a null bridge throws, uncaught.  Its
callback also has no `try`, so a malformed payload throws uncaught. -/
def runLoadHistory (backendUp : Bool) (parsed : Option (List HistoryRecord)) : HistoryRun :=
  if backendUp then
    match parsed with
    | none =>
      { rowsRendered := none
        uncaughtError := some jsonParseErrorMsg }
    | some records =>
      { rowsRendered := some (records.map renderHistoryRow)
        uncaughtError := none }
  else
    { rowsRendered := none
      uncaughtError := some nullBackendErrorMsg }

/-- `risk_distribution` of a dashboard payload; `none` models an absent
level (defaulted by `|| 0` at the chart). -/
structure RiskDist where
  Low : Option ℚ
  Moderate : Option ℚ
  High : Option ℚ
deriving DecidableEq, Repr

/-- One entry of `weekly_assessments`. -/
structure WeeklyItem where
  week : String
  count : ℚ
deriving DecidableEq, Repr

/-- One entry of `risk_factors`. -/
structure RiskFactor where
  factor : String
  count : ℚ
  percentage : ℚ
deriving DecidableEq, Repr

/-- A parsed `get_dashboard_stats` response. -/
structure DashboardStats where
  error : Option String
  total_assessments : ℚ
  high_risk_count : ℚ
  high_risk_percentage : ℚ
  avg_confidence : ℚ
  recent_activity : ℚ
  risk_distribution : RiskDist
  weekly_assessments : List WeeklyItem
  risk_factors : List RiskFactor
deriving DecidableEq, Repr

/-- Observable outcome of one `loadDashboard` trigger.  The three chart
re-renders it invokes are modelled by the chart functions below;
`chartsInvoked` records that the success path reaches them. -/
structure DashRun where
  consoleError : Option String
  uncaughtError : Option String
  cardsUpdated : Bool
  chartsInvoked : Bool
deriving DecidableEq, Repr

/-- The `loadDashboard` function of app.js.  It *does* guard the null
bridge (`if (!backend) ... return`), and its callback wraps everything
in `try`, so both a malformed payload and a backend-declared error are
reported to the console without crashing. -/
def runLoadDashboard (backendUp : Bool) (parsed : Option DashboardStats) : DashRun :=
  if backendUp then
    match parsed with
    | none =>
      { consoleError := some "Error parsing dashboard stats"
        uncaughtError := none
        cardsUpdated := false
        chartsInvoked := false }
    | some stats =>
      match stats.error with
      | some msg =>
        { consoleError := some ("Error loading dashboard stats: " ++ msg)
          uncaughtError := none
          cardsUpdated := false
          chartsInvoked := false }
      | none =>
        { consoleError := none
          uncaughtError := none
          cardsUpdated := true
          chartsInvoked := true }
  else
    { consoleError := some "Backend not initialized"
      uncaughtError := none
      cardsUpdated := false
      chartsInvoked := false }

/-!
Chart handle lifecycle.  The three module-level chart variables
(`riskPieChart`, `weeklyLineChart`, `featureImportanceChart`) each hold
the handle of the last `new Chart(...)` for their surface, or `none`.
Handles are identified by the value of a fresh counter `nextId`; the
`live` list is the set of constructed-and-not-yet-destroyed Chart.js
instances (the resource the spec's invariant is about): `destroy()`
removes a handle from it, `new Chart(...)` appends a fresh one.
-/

structure ChartsSt where
  riskPieChart : Option Nat
  weeklyLineChart : Option Nat
  featureImportanceChart : Option Nat
  live : List Nat
  nextId : Nat
deriving DecidableEq, Repr

/-- Effect of the `if (chart) chart.destroy()` preamble on the live set. -/
def chartDestroy (live : List Nat) (h : Option Nat) : List Nat :=
  match h with
  | some id => live.erase id
  | none => live

/-- Data shown by the risk distribution doughnut. -/
structure RiskPieView where
  dataValues : List ℚ
  doughnutTotal : ℚ
deriving DecidableEq, Repr

/-- The `updateRiskPieChart` function of app.js: a missing canvas returns
untouched; otherwise the held handle (if any) is destroyed first, the
`|| 0`-defaulted distribution and its total are computed, and a fresh
chart is constructed and stored.  Chart.js styling options carry no
state and are elided. -/
def updateRiskPieChart (s : ChartsSt) (ctxPresent : Bool) (riskDist : RiskDist) :
    ChartsSt × Option RiskPieView :=
  if !ctxPresent then (s, none)
  else
    let live1 := chartDestroy s.live s.riskPieChart
    let dataValues := [qOr riskDist.Low 0, qOr riskDist.Moderate 0, qOr riskDist.High 0]
    let total := dataValues.foldl (· + ·) 0
    ({ s with riskPieChart := some s.nextId
              live := live1 ++ [s.nextId]
              nextId := s.nextId + 1 },
     some { dataValues := dataValues, doughnutTotal := total })

/-- Week label of the trend chart:
`weekStr.split('-W')[1] || weekStr.split('/')[1] || '?'`. -/
def weekLabel (week : String) : String :=
  let a := (week.splitOn "-W").getD 1 ""
  let b := (week.splitOn "/").getD 1 ""
  "Week " ++ (if a ≠ "" then a else if b ≠ "" then b else "?")

/-- Data shown by the weekly trend line. -/
structure WeeklyView where
  labels : List String
  counts : List ℚ
deriving DecidableEq, Repr

/-- The `updateWeeklyLineChart` function of app.js: same
destroy-then-create pattern on its own handle. -/
def updateWeeklyLineChart (s : ChartsSt) (ctxPresent : Bool) (weeklyData : List WeeklyItem) :
    ChartsSt × Option WeeklyView :=
  if !ctxPresent then (s, none)
  else
    let live1 := chartDestroy s.live s.weeklyLineChart
    ({ s with weeklyLineChart := some s.nextId
              live := live1 ++ [s.nextId]
              nextId := s.nextId + 1 },
     some { labels := weeklyData.map (fun item => weekLabel item.week)
            counts := weeklyData.map (fun item => item.count) })

/-- Fixed relative-importance data of the About-view bar chart. -/
def featureImportanceData : List ℚ := [100, 85, 70, 60, 50]

/-- The `initFeatureImportanceChart` function of app.js: same
destroy-then-create pattern on its own handle, with fixed data. -/
def initFeatureImportanceChart (s : ChartsSt) (ctxPresent : Bool) :
    ChartsSt × Option (List ℚ) :=
  if !ctxPresent then (s, none)
  else
    let live1 := chartDestroy s.live s.featureImportanceChart
    ({ s with featureImportanceChart := some s.nextId
              live := live1 ++ [s.nextId]
              nextId := s.nextId + 1 },
     some featureImportanceData)

/-- The handles currently held by the three surface variables. -/
def ChartsSt.handles (s : ChartsSt) : List Nat :=
  s.riskPieChart.toList ++ s.weeklyLineChart.toList ++ s.featureImportanceChart.toList

/-- Well-formedness of the chart state: the live instances are exactly
the held handles (so each surface owns at most one live instance), the
held handles are pairwise distinct, and all are below the counter. -/
def ChartsSt.wf (s : ChartsSt) : Prop :=
  s.live.Perm s.handles ∧ s.handles.Nodup ∧ ∀ h ∈ s.handles, h < s.nextId

/-!
Theorems.  Each claim of the specification audit is settled by exactly
one theorem below (with a witness instantiation when the theorem
carries hypotheses, and a concrete counterexample where the original
claim fails on the code).
-/

/-- C1 (as amended): for every response that parses, `calculateRisk`
restores the trigger control (enabled, original label) and reports a
backend-declared error via an alert; an exception in the synchronous
request phase (e.g. a null bridge) is caught by the `try`, alerted, and
the control is restored; but a response that fails to parse throws
inside the asynchronous callback where nothing catches it — no alert is
shown and the control is left disabled with the calculating label. -/
theorem calculateRisk_exit_paths :
    ∀ (lang : Lang) (r : AssessResult),
      (runCalculateRisk lang true (some r)).finalBtnLabel = tr lang "btn-calculate" ∧
      (runCalculateRisk lang true (some r)).finalBtnDisabled = false ∧
      (runCalculateRisk lang true (some r)).uncaughtError = none ∧
      (runCalculateRisk lang true (some r)).alert =
        (match r.error with
          | some msg => some ("Error: " ++ msg)
          | none => none) ∧
      (runCalculateRisk lang false (some r)).alert =
        some ("Error calculating risk: " ++ nullBackendErrorMsg) ∧
      (runCalculateRisk lang false (some r)).finalBtnDisabled = false ∧
      (runCalculateRisk lang false (some r)).finalBtnLabel = tr lang "btn-calculate" ∧
      (runCalculateRisk lang true none).uncaughtError = some jsonParseErrorMsg ∧
      (runCalculateRisk lang true none).alert = none ∧
      (runCalculateRisk lang true none).finalBtnDisabled = true := by
  intro lang r
  cases hr : r.error <;> simp [runCalculateRisk, hr]

/-- C1 counterexample: on a malformed scoring response (`JSON.parse`
fails) the exception is *not* caught and *not* reported like a backend
error — no alert fires, the error escapes the callback uncaught, and
the trigger control stays disabled, contradicting the claimed behavior
on that exit path. -/
theorem calculateRisk_malformed_not_caught :
    (runCalculateRisk Lang.en true none).alert = none ∧
    (runCalculateRisk Lang.en true none).uncaughtError = some jsonParseErrorMsg ∧
    (runCalculateRisk Lang.en true none).finalBtnDisabled = true ∧
    (runCalculateRisk Lang.en true none).finalBtnLabel = tr Lang.en "btn-calculating" :=
  ⟨rfl, rfl, rfl, rfl⟩

/-- C4 (as amended): with the bridge uninitialized, `loadDashboard`
no-ops with a console warning thanks to its explicit `if (!backend)`
guard; `calculateRisk` is shielded by its `try/catch`, which converts
the null-bridge `TypeError` into an alert with the control restored;
`saveAssessment` and `printReport` are shielded only indirectly, by
their no-current-result precondition check (the only reachable case
when the bridge never initialized); but `loadHistory` has no guard at
all and throws an uncaught `TypeError`. -/
theorem bridge_unavailable_guards :
    ∀ (pd : Option DashboardStats) (lang : Lang) (pc : Option AssessResult)
      (form : FormState) (gen : Option GenIdResponse) (pid hw lbl : String)
      (pr : Option PdfResponse) (ph : Option (List HistoryRecord)),
      runLoadDashboard false pd =
        { consoleError := some "Backend not initialized"
          uncaughtError := none
          cardsUpdated := false
          chartsInvoked := false } ∧
      (runCalculateRisk lang false pc).uncaughtError = none ∧
      (runCalculateRisk lang false pc).alert =
        some ("Error calculating risk: " ++ nullBackendErrorMsg) ∧
      (runCalculateRisk lang false pc).finalBtnDisabled = false ∧
      runSaveAssessment false none form gen =
        { alert := some "No assessment to save. Please calculate risk first."
          genCallMade := false
          saveCallMade := false
          payload := none
          patientIdField := form.patientId
          uncaughtError := none } ∧
      runPrintReport false none pid hw lbl pr =
        { alert := some PrintAlert.noAssessment
          callMade := false
          patientIdSent := none
          healthWorkerSent := none
          btnLabel := lbl
          btnDisabled := false
          uncaughtError := none } ∧
      (runLoadHistory false ph).uncaughtError = some nullBackendErrorMsg := by
  intro pd lang pc form gen pid hw lbl pr ph
  exact ⟨rfl, rfl, rfl, rfl, rfl, rfl, rfl⟩

/-- C4 counterexample: `loadHistory` invoked with the bridge
uninitialized does not no-op or warn — the method access on the null
bridge throws an uncaught `TypeError` (a crash), refuting the claim
that every bridge-dependent workflow guards that case. -/
theorem loadHistory_no_bridge_guard :
    (runLoadHistory false (some [])).uncaughtError = some nullBackendErrorMsg ∧
    (runLoadHistory false (some [])).rowsRendered = none :=
  ⟨rfl, rfl⟩

/-- C6 (confirmed): with no current AssessmentResult, `saveAssessment`
and `printReport` each alert immediately ("nothing to save" / "nothing
to print"), issue no backend call of any kind, and leave the patient-id
field and the trigger button exactly as they were. -/
theorem no_current_result_guards :
    ∀ (b : Bool) (form : FormState) (gen : Option GenIdResponse)
      (b' : Bool) (pid hw lbl : String) (resp : Option PdfResponse),
      runSaveAssessment b none form gen =
        { alert := some "No assessment to save. Please calculate risk first."
          genCallMade := false
          saveCallMade := false
          payload := none
          patientIdField := form.patientId
          uncaughtError := none } ∧
      runPrintReport b' none pid hw lbl resp =
        { alert := some PrintAlert.noAssessment
          callMade := false
          patientIdSent := none
          healthWorkerSent := none
          btnLabel := lbl
          btnDisabled := false
          uncaughtError := none } := by
  intro b form gen b' pid hw lbl resp
  exact ⟨rfl, rfl⟩

/-- C3 (as amended): `calculateBMI` produces no output when the weight
field is zero or absent, or the height field is absent or ≤ 0; for any
*nonzero* weight (negative ones included — they pass the `weight &&`
truthiness guard) and positive height it computes
value = weight / (height_m)², renders it to one decimal place, and
classifies the value into exactly the spec's bands (< 18.5 Underweight,
[18.5, 25) Normal, [25, 30) Overweight, ≥ 30 Obese); in particular
weight 60 / height 160 renders 23.4 Normal and weight 45 / height 160
renders 17.6 Underweight. -/
theorem calculateBMI_spec_bands :
    (∀ hf : Option ℚ, calculateBMI none hf = none) ∧
    (∀ hf : Option ℚ, calculateBMI (some 0) hf = none) ∧
    (∀ w : ℚ, calculateBMI (some w) none = none) ∧
    (∀ w h : ℚ, h ≤ 0 → calculateBMI (some w) (some h) = none) ∧
    (∀ w h : ℚ, w ≠ 0 → 0 < h →
      (calculateBMI (some w) (some h)).map
          (fun out => (out.valueTenths, bandNameOfKey out.statusKey)) =
        some (jsToFixedTenths (w / (h / 100 * (h / 100))),
              specBand (w / (h / 100 * (h / 100))))) ∧
    calculateBMI (some 60) (some 160) =
      some { valueTenths := 234, statusKey := "bmi-normal", className := "normal", icon := "✅" } ∧
    calculateBMI (some 45) (some 160) =
      some { valueTenths := 176, statusKey := "bmi-underweight", className := "warning", icon := "⚠️" } := by
  refine ⟨?_, ?_, ?_, ?_, ?_, ?_, ?_⟩
  · intro hf; simp [calculateBMI, numTruthy]
  · intro hf; simp [calculateBMI, numTruthy]
  · intro w; cases h : numTruthy (some w) <;> simp [calculateBMI, heightPos, h]
  · intro w h hle
    have hnp : ¬ (0 < h / 100) := by nlinarith
    simp [calculateBMI, heightPos, hnp]
  · intro w h hw hh
    have hp : 0 < h / 100 := by positivity
    have hcond : (numTruthy (some w) && heightPos (some (h / 100))) = true := by
      simp [numTruthy, heightPos, hw, hp]
    simp only [calculateBMI, Option.map_some', hcond, if_true]
    set bmi := w / (h / 100 * (h / 100)) with hbmi
    by_cases h1 : bmi < 185/10
    · simp [h1, specBand, bandNameOfKey]
    · by_cases h2 : bmi < 25
      · simp [h1, h2, specBand, bandNameOfKey, not_lt.mp h1]
      · by_cases h3 : bmi < 30
        · simp [h1, h2, h3, specBand, bandNameOfKey, not_lt.mp h2]
        · simp [h1, h2, h3, specBand, bandNameOfKey]
  · unfold calculateBMI
    norm_num [numTruthy, heightPos, jsToFixedTenths]
  · unfold calculateBMI
    norm_num [numTruthy, heightPos, jsToFixedTenths]
    decide

/-- C3 witness: the amended theorem applied at weight 70 / height 0
(degenerate: no output) and at weight 70 / height 175 (output produced
with the spec-worded band of the computed value). -/
theorem calculateBMI_spec_bands_witness :
    calculateBMI (some 70) (some 0) = none ∧
    (calculateBMI (some 70) (some 175)).map
        (fun out => (out.valueTenths, bandNameOfKey out.statusKey)) =
      some (jsToFixedTenths (70 / (175 / 100 * (175 / 100))),
            specBand (70 / (175 / 100 * (175 / 100)))) :=
  ⟨calculateBMI_spec_bands.2.2.2.1 70 0 le_rfl,
   calculateBMI_spec_bands.2.2.2.2.1 70 175 (by norm_num) (by norm_num)⟩

/-- C3 counterexample: a *negative* weight is non-positive, yet the
guard `if (weight && height > 0)` treats it as truthy and the function
does produce output (-2.0, classified Underweight) — refuting "no
output when weight is non-positive". -/
theorem calculateBMI_negative_weight_output :
    calculateBMI (some (-5)) (some 160) =
      some { valueTenths := -20, statusKey := "bmi-underweight"
             className := "warning", icon := "⚠️" } := by
  unfold calculateBMI
  norm_num [numTruthy, heightPos, jsToFixedTenths]
  decide

/-- C5 (confirmed): for every valid (non-error) scoring response the
rendered gauge percentage text is `round(confidence)` with a percent
sign, and each probability bar width is the corresponding probability
value, unmodified. -/
theorem gauge_and_bars_exact :
    ∀ (lang : Lang) (r : AssessResult), r.error = none →
      (displayResults lang r).gauge.percentText = toString (jsRound r.confidence) ++ "%" ∧
      (displayResults lang r).probs.barLowWidth = r.probabilities.low ∧
      (displayResults lang r).probs.barModerateWidth = r.probabilities.moderate ∧
      (displayResults lang r).probs.barHighWidth = r.probabilities.high := by
  intro lang r _
  exact ⟨rfl, rfl, rfl, rfl⟩

/-- C5 witness: the theorem applied to the spec's scenario response
(High, confidence 92, probabilities 3/12/85). -/
theorem gauge_and_bars_exact_witness :
    (displayResults Lang.en
        { error := none, risk_level := "High", confidence := 92
          probabilities := { low := 3, moderate := 12, high := 85 }
          bmi := some (234/10), model_used := "full_model", lab_available := true }).gauge.percentText =
      toString (jsRound (92 : ℚ)) ++ "%" ∧
    (displayResults Lang.en
        { error := none, risk_level := "High", confidence := 92
          probabilities := { low := 3, moderate := 12, high := 85 }
          bmi := some (234/10), model_used := "full_model", lab_available := true }).probs.barLowWidth = 3 ∧
    (displayResults Lang.en
        { error := none, risk_level := "High", confidence := 92
          probabilities := { low := 3, moderate := 12, high := 85 }
          bmi := some (234/10), model_used := "full_model", lab_available := true }).probs.barModerateWidth = 12 ∧
    (displayResults Lang.en
        { error := none, risk_level := "High", confidence := 92
          probabilities := { low := 3, moderate := 12, high := 85 }
          bmi := some (234/10), model_used := "full_model", lab_available := true }).probs.barHighWidth = 85 :=
  gauge_and_bars_exact Lang.en
    { error := none, risk_level := "High", confidence := 92
      probabilities := { low := 3, moderate := 12, high := 85 }
      bmi := some (234/10), model_used := "full_model", lab_available := true } rfl

/-- C9 (confirmed): `proceedWithSave` defaults clinical fields by JS
falsiness, not by parse failure: a field entered as exactly 0 (which
parses successfully) is still replaced — age 0 becomes 25, systolic 0
becomes 120, diastolic 0 becomes 80 — while blood sugar and hemoglobin
keep 0 (their default is 0.0), and a blank health-worker name becomes
"N/A". -/
theorem proceedWithSave_falsy_defaults :
    ∀ (pid : String) (r : AssessResult) (form : FormState),
      form.age = some 0 → form.systolic = some 0 → form.diastolic = some 0 →
      form.bloodSugar = some 0 → form.hemoglobin = some 0 →
      jsTrim form.healthWorker = "" →
      (proceedWithSave pid r form).age = 25 ∧
      (proceedWithSave pid r form).systolic = 120 ∧
      (proceedWithSave pid r form).diastolic = 80 ∧
      (proceedWithSave pid r form).blood_sugar = 0 ∧
      (proceedWithSave pid r form).hemoglobin = 0 ∧
      (proceedWithSave pid r form).health_worker = "N/A" := by
  intro pid r form h1 h2 h3 h4 h5 h6
  simp [proceedWithSave, h1, h2, h3, h4, h5, h6, qOr, strOrS, jsTrunc]

/-- C9 witness: the theorem applied to a form whose age, pressures, lab
fields are all the successfully parsed 0 and whose health-worker field
is whitespace. -/
theorem proceedWithSave_falsy_defaults_witness :
    (proceedWithSave "P-1"
        { error := none, risk_level := "Low", confidence := 90
          probabilities := { low := 80, moderate := 15, high := 5 }
          bmi := some (234/10), model_used := "full_model", lab_available := true }
        { patientId := "P-1", healthWorker := "  ", age := some 0, weight := some 60
          height := some 160, systolic := some 0, diastolic := some 0
          bloodSugar := some 0, hemoglobin := some 0, labAvailable := true }).age = 25 ∧
    (proceedWithSave "P-1"
        { error := none, risk_level := "Low", confidence := 90
          probabilities := { low := 80, moderate := 15, high := 5 }
          bmi := some (234/10), model_used := "full_model", lab_available := true }
        { patientId := "P-1", healthWorker := "  ", age := some 0, weight := some 60
          height := some 160, systolic := some 0, diastolic := some 0
          bloodSugar := some 0, hemoglobin := some 0, labAvailable := true }).systolic = 120 ∧
    (proceedWithSave "P-1"
        { error := none, risk_level := "Low", confidence := 90
          probabilities := { low := 80, moderate := 15, high := 5 }
          bmi := some (234/10), model_used := "full_model", lab_available := true }
        { patientId := "P-1", healthWorker := "  ", age := some 0, weight := some 60
          height := some 160, systolic := some 0, diastolic := some 0
          bloodSugar := some 0, hemoglobin := some 0, labAvailable := true }).diastolic = 80 ∧
    (proceedWithSave "P-1"
        { error := none, risk_level := "Low", confidence := 90
          probabilities := { low := 80, moderate := 15, high := 5 }
          bmi := some (234/10), model_used := "full_model", lab_available := true }
        { patientId := "P-1", healthWorker := "  ", age := some 0, weight := some 60
          height := some 160, systolic := some 0, diastolic := some 0
          bloodSugar := some 0, hemoglobin := some 0, labAvailable := true }).blood_sugar = 0 ∧
    (proceedWithSave "P-1"
        { error := none, risk_level := "Low", confidence := 90
          probabilities := { low := 80, moderate := 15, high := 5 }
          bmi := some (234/10), model_used := "full_model", lab_available := true }
        { patientId := "P-1", healthWorker := "  ", age := some 0, weight := some 60
          height := some 160, systolic := some 0, diastolic := some 0
          bloodSugar := some 0, hemoglobin := some 0, labAvailable := true }).hemoglobin = 0 ∧
    (proceedWithSave "P-1"
        { error := none, risk_level := "Low", confidence := 90
          probabilities := { low := 80, moderate := 15, high := 5 }
          bmi := some (234/10), model_used := "full_model", lab_available := true }
        { patientId := "P-1", healthWorker := "  ", age := some 0, weight := some 60
          height := some 160, systolic := some 0, diastolic := some 0
          bloodSugar := some 0, hemoglobin := some 0, labAvailable := true }).health_worker = "N/A" :=
  proceedWithSave_falsy_defaults "P-1"
    { error := none, risk_level := "Low", confidence := 90
      probabilities := { low := 80, moderate := 15, high := 5 }
      bmi := some (234/10), model_used := "full_model", lab_available := true }
    { patientId := "P-1", healthWorker := "  ", age := some 0, weight := some 60
      height := some 160, systolic := some 0, diastolic := some 0
      bloodSugar := some 0, hemoglobin := some 0, labAvailable := true }
    rfl rfl rfl rfl rfl (by decide)

/-- C10 (confirmed): `updateRecommendations` renders the High-risk
block for every risk level that is neither "Low" nor "Moderate" —
including unknown or malformed strings — because the High variant is
the trailing `else`, not an explicitly matched case. -/
theorem updateRecommendations_high_default :
    ∀ (lang : Lang) (r : AssessResult),
      r.risk_level ≠ "Low" → r.risk_level ≠ "Moderate" →
      updateRecommendations lang r =
        updateRecommendations lang { r with risk_level := "High" } := by
  intro lang r h1 h2
  simp [updateRecommendations, h1, h2]

/-- C10 witness: the theorem applied to a result whose risk level is the
unknown string "Garbage". -/
theorem updateRecommendations_high_default_witness :
    updateRecommendations Lang.en
        { error := none, risk_level := "Garbage", confidence := 50
          probabilities := { low := 30, moderate := 30, high := 40 }
          bmi := none, model_used := "basic_model", lab_available := false } =
      updateRecommendations Lang.en
        { error := none, risk_level := "High", confidence := 50
          probabilities := { low := 30, moderate := 30, high := 40 }
          bmi := none, model_used := "basic_model", lab_available := false } :=
  updateRecommendations_high_default Lang.en
    { error := none, risk_level := "Garbage", confidence := 50
      probabilities := { low := 30, moderate := 30, high := 40 }
      bmi := none, model_used := "basic_model", lab_available := false }
    (by decide) (by decide)

/-- C2 (as amended): patient-id resolution in `saveAssessment` — with an
empty/blank/"N/A" entered identifier a generation request is issued: a
parsed response that is successful and carries a nonempty id uses that
id verbatim (written back into the field) and the save proceeds; any
other *parsed* response uses the response's own id when present and the
fixed fallback "P-2025-0001" otherwise, logged but non-fatal, and the
save still proceeds; but a *malformed* generation response is caught by
the callback's `catch`, alerted ("enter manually"), and the save is
aborted.  With a non-empty (and non-"N/A") identifier no generation
call is made and the trimmed input is saved directly. -/
theorem saveAssessment_id_resolution :
    ∀ (r : AssessResult) (form : FormState) (gen : GenIdResponse) (pid : String),
      (jsTrim form.patientId = "" ∨ jsTrim form.patientId = "N/A" →
        runSaveAssessment true (some r) form none =
          { alert := some "Error generating Patient ID. Please enter manually."
            genCallMade := true, saveCallMade := false, payload := none
            patientIdField := form.patientId, uncaughtError := none } ∧
        (gen.success = true → gen.patient_id = some pid → pid ≠ "" →
          runSaveAssessment true (some r) form (some gen) =
            { alert := none, genCallMade := true, saveCallMade := true
              payload := some (proceedWithSave pid r form)
              patientIdField := pid, uncaughtError := none }) ∧
        (¬ (gen.success = true ∧ strTruthy gen.patient_id = true) →
          runSaveAssessment true (some r) form (some gen) =
            { alert := none, genCallMade := true, saveCallMade := true
              payload := some (proceedWithSave (strOr gen.patient_id "P-2025-0001") r form)
              patientIdField := strOr gen.patient_id "P-2025-0001", uncaughtError := none })) ∧
      (jsTrim form.patientId ≠ "" → jsTrim form.patientId ≠ "N/A" →
        runSaveAssessment true (some r) form (some gen) =
          { alert := none, genCallMade := false, saveCallMade := true
            payload := some (proceedWithSave (jsTrim form.patientId) r form)
            patientIdField := form.patientId, uncaughtError := none }) := by
  intro r form gen pid
  constructor
  · intro hemp
    refine ⟨?_, ?_, ?_⟩
    · simp only [runSaveAssessment]
      rw [if_pos hemp]
      simp
    · intro hs hp hne
      simp only [runSaveAssessment]
      rw [if_pos hemp]
      simp [hs, hp, strTruthy, hne]
    · intro hneg
      have hb : (gen.success && strTruthy gen.patient_id) = false := by
        cases hgs : gen.success <;> cases hgt : strTruthy gen.patient_id <;> simp_all
      simp only [runSaveAssessment]
      rw [if_pos hemp]
      simp [hb]
  · intro h1 h2
    have hcond : ¬ (jsTrim form.patientId = "" ∨ jsTrim form.patientId = "N/A") := by
      rintro (h | h)
      · exact h1 h
      · exact h2 h
    simp only [runSaveAssessment]
    rw [if_neg hcond]
    simp

/-- C2 counterexample: with an empty entered identifier and a
generation response that fails to parse, the failure *is* treated as
fatal — the callback's `catch` alerts and `proceedWithSave` is never
reached, so no save call is made, refuting "the save still
proceeds" for the malformed-response case. -/
theorem saveAssessment_malformed_gen_aborts :
    (runSaveAssessment true
        (some { error := none, risk_level := "Low", confidence := 90
                probabilities := { low := 80, moderate := 15, high := 5 }
                bmi := some (234/10), model_used := "full_model", lab_available := true })
        { patientId := "", healthWorker := "Ana", age := some 25, weight := some 60
          height := some 160, systolic := some 120, diastolic := some 80
          bloodSugar := some (11/2), hemoglobin := some 12, labAvailable := true }
        none).saveCallMade = false ∧
    (runSaveAssessment true
        (some { error := none, risk_level := "Low", confidence := 90
                probabilities := { low := 80, moderate := 15, high := 5 }
                bmi := some (234/10), model_used := "full_model", lab_available := true })
        { patientId := "", healthWorker := "Ana", age := some 25, weight := some 60
          height := some 160, systolic := some 120, diastolic := some 80
          bloodSugar := some (11/2), hemoglobin := some 12, labAvailable := true }
        none).alert = some "Error generating Patient ID. Please enter manually." ∧
    (runSaveAssessment true
        (some { error := none, risk_level := "Low", confidence := 90
                probabilities := { low := 80, moderate := 15, high := 5 }
                bmi := some (234/10), model_used := "full_model", lab_available := true })
        { patientId := "", healthWorker := "Ana", age := some 25, weight := some 60
          height := some 160, systolic := some 120, diastolic := some 80
          bloodSugar := some (11/2), hemoglobin := some 12, labAvailable := true }
        none).genCallMade = true := by
  refine ⟨?_, ?_, ?_⟩ <;> simp [runSaveAssessment, jsTrim]

/-- C2 witness: the amended theorem applied to a concrete result and
form with an empty id against a successful generation, a failed (but
parseable) generation, and to a form with a given id. -/
theorem saveAssessment_id_resolution_witness :
    (let r0 : AssessResult :=
      { error := none, risk_level := "Low", confidence := 90
        probabilities := { low := 80, moderate := 15, high := 5 }
        bmi := some (234/10), model_used := "full_model", lab_available := true }
     let fempty : FormState :=
      { patientId := "", healthWorker := "Ana", age := some 25, weight := some 60
        height := some 160, systolic := some 120, diastolic := some 80
        bloodSugar := some (11/2), hemoglobin := some 12, labAvailable := true }
     let fgiven : FormState :=
      { patientId := " P-7 ", healthWorker := "Ana", age := some 25, weight := some 60
        height := some 160, systolic := some 120, diastolic := some 80
        bloodSugar := some (11/2), hemoglobin := some 12, labAvailable := true }
     let genOK : GenIdResponse := { success := true, patient_id := some "P-2025-0042" }
     let genFail : GenIdResponse := { success := false, patient_id := none }
     runSaveAssessment true (some r0) fempty (some genOK) =
       { alert := none, genCallMade := true, saveCallMade := true
         payload := some (proceedWithSave "P-2025-0042" r0 fempty)
         patientIdField := "P-2025-0042", uncaughtError := none } ∧
     runSaveAssessment true (some r0) fempty (some genFail) =
       { alert := none, genCallMade := true, saveCallMade := true
         payload := some (proceedWithSave (strOr genFail.patient_id "P-2025-0001") r0 fempty)
         patientIdField := strOr genFail.patient_id "P-2025-0001", uncaughtError := none } ∧
     runSaveAssessment true (some r0) fgiven (some genFail) =
       { alert := none, genCallMade := false, saveCallMade := true
         payload := some (proceedWithSave (jsTrim fgiven.patientId) r0 fgiven)
         patientIdField := fgiven.patientId, uncaughtError := none }) := by
  refine ⟨?_, ?_, ?_⟩
  · exact ((saveAssessment_id_resolution _ _ _ "P-2025-0042").1 (Or.inl (by decide))).2.1
      rfl rfl (by decide)
  · exact ((saveAssessment_id_resolution _ _ _ "").1 (Or.inl (by decide))).2.2 (by decide)
  · exact (saveAssessment_id_resolution _ _ _ "").2 (by decide) (by decide)

/-- Helper for the chart lifecycle: one destroy-then-create step on a
surface whose handle sits between the other surfaces' handle lists `A`
and `B` preserves the live-set bookkeeping, removes the old handle from
the live set, and leaves the fresh handle live. -/
theorem renderStep (live A B : List Nat) (o : Option Nat) (n : Nat)
    (hperm : live.Perm (A ++ o.toList ++ B))
    (hnodup : (A ++ o.toList ++ B).Nodup)
    (hfresh : ∀ x ∈ A ++ o.toList ++ B, x < n) :
    (chartDestroy live o ++ [n]).Perm (A ++ [n] ++ B) ∧
    (A ++ [n] ++ B).Nodup ∧
    (∀ x ∈ A ++ [n] ++ B, x < n + 1) ∧
    (∀ h, o = some h → h ∉ chartDestroy live o ++ [n]) ∧
    n ∈ chartDestroy live o ++ [n] := by
  have heq : A ++ [n] ++ B = A ++ n :: B := by simp
  cases o with
  | none =>
    have hperm' : live.Perm (A ++ B) := by simpa using hperm
    have hAB : (A ++ B).Nodup := by simpa using hnodup
    have hnAB : n ∉ A ++ B := fun hmem =>
      absurd (hfresh n (by simpa using hmem)) (lt_irrefl n)
    refine ⟨?_, ?_, ?_, ?_, ?_⟩
    · rw [heq]
      exact (hperm'.append_right [n]).trans
        ((List.perm_append_singleton n (A ++ B)).trans List.perm_middle.symm)
    · rw [heq]
      exact List.nodup_middle.mpr (List.nodup_cons.mpr ⟨hnAB, hAB⟩)
    · intro x hx
      rw [heq] at hx
      rcases List.mem_append.mp hx with hA | hnB
      · exact lt_trans (hfresh x (by simp [hA])) (Nat.lt_succ_self n)
      · rcases List.mem_cons.mp hnB with hxn | hB
        · omega
        · exact lt_trans (hfresh x (by simp [hB])) (Nat.lt_succ_self n)
    · intro h hcontra
      exact absurd hcontra (by simp)
    · simp [chartDestroy]
  | some h =>
    have hperm1 : live.Perm (h :: (A ++ B)) := by
      refine hperm.trans ?_
      have := @List.perm_middle Nat h A B
      simpa using this
    have hnodup1 : (h :: (A ++ B)).Nodup := by
      have := @List.perm_middle Nat h A B
      exact ((by simpa using this : (A ++ Option.toList (some h) ++ B).Perm
        (h :: (A ++ B)))).nodup hnodup
    have hliveN : live.Nodup := (hperm1.nodup_iff).mpr hnodup1
    have hAB : (A ++ B).Nodup := (List.nodup_cons.mp hnodup1).2
    have hhAB : h ∉ A ++ B := (List.nodup_cons.mp hnodup1).1
    have hnAB : n ∉ A ++ B := fun hmem =>
      absurd (hfresh n (by
        rcases List.mem_append.mp hmem with h1 | h1
        · simp [h1]
        · simp [h1])) (lt_irrefl n)
    have herase : (live.erase h).Perm (A ++ B) := by
      have := hperm1.erase h
      simpa [List.erase_cons_head] using this
    have hhn : h ≠ n := by
      have : h < n := hfresh h (by simp)
      omega
    refine ⟨?_, ?_, ?_, ?_, ?_⟩
    · rw [heq]
      show (live.erase h ++ [n]).Perm (A ++ n :: B)
      exact (herase.append_right [n]).trans
        ((List.perm_append_singleton n (A ++ B)).trans List.perm_middle.symm)
    · rw [heq]
      exact List.nodup_middle.mpr (List.nodup_cons.mpr ⟨hnAB, hAB⟩)
    · intro x hx
      rw [heq] at hx
      rcases List.mem_append.mp hx with hA | hnB
      · exact lt_trans (hfresh x (by simp [hA])) (Nat.lt_succ_self n)
      · rcases List.mem_cons.mp hnB with hxn | hB
        · omega
        · exact lt_trans (hfresh x (by simp [hB])) (Nat.lt_succ_self n)
    · intro h' hh'
      injection hh' with hh'e
      subst hh'e
      show h ∉ live.erase h ++ [n]
      intro hmem
      rcases List.mem_append.mp hmem with h1 | h1
      · exact absurd h1 (hliveN.not_mem_erase)
      · rcases List.mem_singleton.mp h1 with rfl
        exact hhn rfl
    · simp [chartDestroy]

/-- Helper: `updateRiskPieChart` on a well-formed state disposes the
previously held pie handle, stores the fresh one, and preserves
well-formedness. -/
theorem updateRiskPieChart_step (s : ChartsSt) (d : RiskDist) (hwf : s.wf) :
    ((updateRiskPieChart s true d).1).wf ∧
    (∀ h, s.riskPieChart = some h → h ∉ ((updateRiskPieChart s true d).1).live) ∧
    ((updateRiskPieChart s true d).1).riskPieChart = some s.nextId ∧
    s.nextId ∈ ((updateRiskPieChart s true d).1).live := by
  obtain ⟨hperm, hnodup, hfresh⟩ := hwf
  have hperm' : s.live.Perm
      ([] ++ s.riskPieChart.toList ++ (s.weeklyLineChart.toList ++ s.featureImportanceChart.toList)) := by
    simpa [ChartsSt.handles] using hperm
  have hnodup' :
      ([] ++ s.riskPieChart.toList ++ (s.weeklyLineChart.toList ++ s.featureImportanceChart.toList)).Nodup := by
    simpa [ChartsSt.handles] using hnodup
  have hfresh' : ∀ x ∈ [] ++ s.riskPieChart.toList ++ (s.weeklyLineChart.toList ++ s.featureImportanceChart.toList), x < s.nextId := by
    intro x hx
    exact hfresh x (by simpa [ChartsSt.handles] using hx)
  have key := renderStep s.live [] (s.weeklyLineChart.toList ++ s.featureImportanceChart.toList)
      s.riskPieChart s.nextId hperm' hnodup' hfresh'
  refine ⟨⟨?_, ?_, ?_⟩, ?_, ?_, ?_⟩
  · simpa [updateRiskPieChart, ChartsSt.handles] using key.1
  · simpa [updateRiskPieChart, ChartsSt.handles] using key.2.1
  · intro x hx
    have := key.2.2.1 x (by simpa [updateRiskPieChart, ChartsSt.handles] using hx)
    simpa [updateRiskPieChart] using this
  · intro h hh
    have := key.2.2.2.1 h hh
    simpa [updateRiskPieChart] using this
  · simp [updateRiskPieChart]
  · simpa [updateRiskPieChart] using key.2.2.2.2

/-- Helper: the analogous step property for `updateWeeklyLineChart`. -/
theorem updateWeeklyLineChart_step (s : ChartsSt) (w : List WeeklyItem) (hwf : s.wf) :
    ((updateWeeklyLineChart s true w).1).wf ∧
    (∀ h, s.weeklyLineChart = some h → h ∉ ((updateWeeklyLineChart s true w).1).live) ∧
    ((updateWeeklyLineChart s true w).1).weeklyLineChart = some s.nextId ∧
    s.nextId ∈ ((updateWeeklyLineChart s true w).1).live := by
  obtain ⟨hperm, hnodup, hfresh⟩ := hwf
  have hperm' : s.live.Perm
      (s.riskPieChart.toList ++ s.weeklyLineChart.toList ++ s.featureImportanceChart.toList) := by
    simpa [ChartsSt.handles] using hperm
  have hnodup' :
      (s.riskPieChart.toList ++ s.weeklyLineChart.toList ++ s.featureImportanceChart.toList).Nodup := by
    simpa [ChartsSt.handles] using hnodup
  have hfresh' : ∀ x ∈ s.riskPieChart.toList ++ s.weeklyLineChart.toList ++ s.featureImportanceChart.toList, x < s.nextId := by
    intro x hx
    exact hfresh x (by simpa [ChartsSt.handles] using hx)
  have key := renderStep s.live s.riskPieChart.toList s.featureImportanceChart.toList
      s.weeklyLineChart s.nextId hperm' hnodup' hfresh'
  refine ⟨⟨?_, ?_, ?_⟩, ?_, ?_, ?_⟩
  · simpa [updateWeeklyLineChart, ChartsSt.handles] using key.1
  · simpa [updateWeeklyLineChart, ChartsSt.handles] using key.2.1
  · intro x hx
    have := key.2.2.1 x (by simpa [updateWeeklyLineChart, ChartsSt.handles] using hx)
    simpa [updateWeeklyLineChart] using this
  · intro h hh
    have := key.2.2.2.1 h hh
    simpa [updateWeeklyLineChart] using this
  · simp [updateWeeklyLineChart]
  · simpa [updateWeeklyLineChart] using key.2.2.2.2

/-- Helper: the analogous step property for `initFeatureImportanceChart`. -/
theorem initFeatureImportanceChart_step (s : ChartsSt) (hwf : s.wf) :
    ((initFeatureImportanceChart s true).1).wf ∧
    (∀ h, s.featureImportanceChart = some h → h ∉ ((initFeatureImportanceChart s true).1).live) ∧
    ((initFeatureImportanceChart s true).1).featureImportanceChart = some s.nextId ∧
    s.nextId ∈ ((initFeatureImportanceChart s true).1).live := by
  obtain ⟨hperm, hnodup, hfresh⟩ := hwf
  have hperm' : s.live.Perm
      ((s.riskPieChart.toList ++ s.weeklyLineChart.toList) ++ s.featureImportanceChart.toList ++ []) := by
    simpa [ChartsSt.handles] using hperm
  have hnodup' :
      ((s.riskPieChart.toList ++ s.weeklyLineChart.toList) ++ s.featureImportanceChart.toList ++ []).Nodup := by
    simpa [ChartsSt.handles] using hnodup
  have hfresh' : ∀ x ∈ (s.riskPieChart.toList ++ s.weeklyLineChart.toList) ++ s.featureImportanceChart.toList ++ [], x < s.nextId := by
    intro x hx
    exact hfresh x (by simpa [ChartsSt.handles] using hx)
  have key := renderStep s.live (s.riskPieChart.toList ++ s.weeklyLineChart.toList) []
      s.featureImportanceChart s.nextId hperm' hnodup' hfresh'
  refine ⟨⟨?_, ?_, ?_⟩, ?_, ?_, ?_⟩
  · simpa [initFeatureImportanceChart, ChartsSt.handles] using key.1
  · simpa [initFeatureImportanceChart, ChartsSt.handles] using key.2.1
  · intro x hx
    have := key.2.2.1 x (by simpa [initFeatureImportanceChart, ChartsSt.handles] using hx)
    simpa [initFeatureImportanceChart] using this
  · intro h hh
    have := key.2.2.2.1 h hh
    simpa [initFeatureImportanceChart] using this
  · simp [initFeatureImportanceChart]
  · simpa [initFeatureImportanceChart] using key.2.2.2.2

/-- C7 (confirmed): on every well-formed chart state, each of the three
render functions first disposes the handle its surface held (the old
handle is no longer live afterwards) and only then constructs the
replacement, which becomes the surface's single held handle;
well-formedness — at most one live instance per surface — is preserved,
and rendering the same surface twice leaves the first render's handle
dead and every instance at multiplicity at most one. -/
theorem chart_surface_single_live_handle :
    ∀ (s : ChartsSt) (d : RiskDist) (w : List WeeklyItem), s.wf →
      (((updateRiskPieChart s true d).1).wf ∧
        (∀ h, s.riskPieChart = some h → h ∉ ((updateRiskPieChart s true d).1).live) ∧
        ((updateRiskPieChart s true d).1).riskPieChart = some s.nextId ∧
        s.nextId ∈ ((updateRiskPieChart s true d).1).live) ∧
      (((updateWeeklyLineChart s true w).1).wf ∧
        (∀ h, s.weeklyLineChart = some h → h ∉ ((updateWeeklyLineChart s true w).1).live) ∧
        ((updateWeeklyLineChart s true w).1).weeklyLineChart = some s.nextId ∧
        s.nextId ∈ ((updateWeeklyLineChart s true w).1).live) ∧
      (((initFeatureImportanceChart s true).1).wf ∧
        (∀ h, s.featureImportanceChart = some h → h ∉ ((initFeatureImportanceChart s true).1).live) ∧
        ((initFeatureImportanceChart s true).1).featureImportanceChart = some s.nextId ∧
        s.nextId ∈ ((initFeatureImportanceChart s true).1).live) ∧
      (∀ h, ((updateRiskPieChart s true d).1).riskPieChart = some h →
        h ∉ ((updateRiskPieChart ((updateRiskPieChart s true d).1) true d).1).live) ∧
      (∀ x, ((updateRiskPieChart ((updateRiskPieChart s true d).1) true d).1).live.count x ≤ 1) := by
  intro s d w hwf
  have h1 := updateRiskPieChart_step s d hwf
  have h2 := updateRiskPieChart_step ((updateRiskPieChart s true d).1) d h1.1
  refine ⟨h1, updateWeeklyLineChart_step s w hwf, initFeatureImportanceChart_step s hwf, ?_, ?_⟩
  · exact h2.2.1
  · intro x
    have hnd : ((updateRiskPieChart ((updateRiskPieChart s true d).1) true d).1).live.Nodup :=
      (h2.1.1.nodup_iff).mpr h2.1.2.1
    exact List.nodup_iff_count_le_one.mp hnd x

/-- C7 witness: the theorem applied to the initial state (no handles,
nothing live, counter 0) and a concrete distribution. -/
theorem chart_surface_single_live_handle_witness :
    (let s0 : ChartsSt :=
      { riskPieChart := none, weeklyLineChart := none, featureImportanceChart := none
        live := [], nextId := 0 }
     let d0 : RiskDist := { Low := some 3, Moderate := some 2, High := some 1 }
     (((updateRiskPieChart s0 true d0).1).wf ∧
       (∀ h, s0.riskPieChart = some h → h ∉ ((updateRiskPieChart s0 true d0).1).live) ∧
       ((updateRiskPieChart s0 true d0).1).riskPieChart = some s0.nextId ∧
       s0.nextId ∈ ((updateRiskPieChart s0 true d0).1).live) ∧
     (((updateWeeklyLineChart s0 true []).1).wf ∧
       (∀ h, s0.weeklyLineChart = some h → h ∉ ((updateWeeklyLineChart s0 true []).1).live) ∧
       ((updateWeeklyLineChart s0 true []).1).weeklyLineChart = some s0.nextId ∧
       s0.nextId ∈ ((updateWeeklyLineChart s0 true []).1).live) ∧
     (((initFeatureImportanceChart s0 true).1).wf ∧
       (∀ h, s0.featureImportanceChart = some h → h ∉ ((initFeatureImportanceChart s0 true).1).live) ∧
       ((initFeatureImportanceChart s0 true).1).featureImportanceChart = some s0.nextId ∧
       s0.nextId ∈ ((initFeatureImportanceChart s0 true).1).live) ∧
     (∀ h, ((updateRiskPieChart s0 true d0).1).riskPieChart = some h →
       h ∉ ((updateRiskPieChart ((updateRiskPieChart s0 true d0).1) true d0).1).live) ∧
     (∀ x, ((updateRiskPieChart ((updateRiskPieChart s0 true d0).1) true d0).1).live.count x ≤ 1)) := by
  exact chart_surface_single_live_handle _ _ []
    ⟨by simp [ChartsSt.handles], by simp [ChartsSt.handles], by simp [ChartsSt.handles]⟩

/-- Helper: a `calculateBMI()` display refresh never touches the tagged
elements, placeholders, stored language, or active language. -/
theorem applyCalculateBMI_fields (st : UIState) :
    (applyCalculateBMI st).elements = st.elements ∧
    (applyCalculateBMI st).placeholders = st.placeholders ∧
    (applyCalculateBMI st).storedLanguage = st.storedLanguage ∧
    (applyCalculateBMI st).currentLanguage = st.currentLanguage := by
  unfold applyCalculateBMI
  cases calculateBMI st.weightField st.heightField <;> simp

/-- C8 (confirmed): `switchLanguage` with the already-active code
returns before doing anything — the state is unchanged, no re-render,
no mutation — and with a different code it re-resolves every
`data-i18n` element and every placeholder from the translation table,
persists the new language preference, and a second invocation with the
same code is then a no-op. -/
theorem switchLanguage_idempotent :
    ∀ (st : UIState) (l : Lang),
      (l = st.currentLanguage → switchLanguage l st = st) ∧
      (l ≠ st.currentLanguage →
        (switchLanguage l st).elements = st.elements.map (resolveElement l) ∧
        (switchLanguage l st).placeholders = st.placeholders.map (resolveElement l) ∧
        (switchLanguage l st).storedLanguage = l ∧
        (switchLanguage l st).currentLanguage = l ∧
        switchLanguage l (switchLanguage l st) = switchLanguage l st) := by
  intro st l
  constructor
  · intro h
    simp [switchLanguage, h]
  · intro h
    have h1 : (switchLanguage l st).elements = st.elements.map (resolveElement l) := by
      simp only [switchLanguage, if_neg h]
      split <;> simp [applyCalculateBMI_fields, updateLanguage]
    have h2 : (switchLanguage l st).placeholders = st.placeholders.map (resolveElement l) := by
      simp only [switchLanguage, if_neg h]
      split <;> simp [applyCalculateBMI_fields, updateLanguage]
    have h3 : (switchLanguage l st).storedLanguage = l := by
      simp only [switchLanguage, if_neg h]
      split <;> simp [applyCalculateBMI_fields, updateLanguage]
    have h4 : (switchLanguage l st).currentLanguage = l := by
      simp only [switchLanguage, if_neg h]
      split <;> simp [applyCalculateBMI_fields, updateLanguage]
    refine ⟨h1, h2, h3, h4, ?_⟩
    set st' := switchLanguage l st with hst'
    simp [switchLanguage, h4]

/-- C8 witness: the theorem applied to a concrete English-language UI
state, once with the active code (no-op) and once with the other code
(re-resolution and persistence). -/
theorem switchLanguage_idempotent_witness :
    (let st0 : UIState :=
      { currentLanguage := Lang.en
        elements := [("app-title", "MATERNAL RISK ASSESSMENT SYSTEM"), ("nav-history", "History")]
        placeholders := [("placeholder-patient-id", "e.g., P-2024-001")]
        checkEnVisible := true, checkFilVisible := false
        dateText := "en-US:0", todayDate := 0
        storedLanguage := Lang.en, labAvailableChecked := true
        modelIndicatorHtml := ""
        bmiValueText := "23.4", bmiStatusText := "✅ Normal"
        bmiStatusClass := "bmi-status normal"
        weightField := some 60, heightField := some 160
        dropdownActive := true }
     switchLanguage Lang.en st0 = st0 ∧
     ((switchLanguage Lang.fil st0).elements = st0.elements.map (resolveElement Lang.fil) ∧
      (switchLanguage Lang.fil st0).placeholders = st0.placeholders.map (resolveElement Lang.fil) ∧
      (switchLanguage Lang.fil st0).storedLanguage = Lang.fil ∧
      (switchLanguage Lang.fil st0).currentLanguage = Lang.fil ∧
      switchLanguage Lang.fil (switchLanguage Lang.fil st0) = switchLanguage Lang.fil st0)) := by
  exact ⟨(switchLanguage_idempotent _ Lang.en).1 rfl,
         (switchLanguage_idempotent _ Lang.fil).2 (by decide)⟩

end MRS
